import Mathlib

/-!
Verification of the KBUS python message layer (src/python/kbus/messages.py)
against its specification.

The embedding models the message data structures and the pure parts of the
codec at byte level.  Byte strings are `List Nat` with entries below 256.
All C `u32` fields are `Nat`s reduced modulo 2^32 where the ctypes layer
would truncate (assignment to a `c_uint32` field).

Layout notes (used by the byte-level codec):
the python code serialises the ctypes struct `_MessageHeaderStruct` verbatim.
On the 64-bit layout modelled here the header is 88 bytes long:
15 little-endian u32 fields (start guard, id, in_reply_to, to, from, orig_from,
final_to, extra, flags, name_len, data_len) occupying bytes 0..59, 4 bytes of
alignment padding, two 8-byte pointer fields (always NULL in the serialised
"entire" form), the header end guard, and 4 bytes of trailing struct padding.
-/

namespace Kbus

/-- Python `MessageId(network_id, serial_num)`: a pair of u32 fields. -/
@[ext]
structure MessageId where
  network_id : Nat
  serial_num : Nat
deriving DecidableEq, Repr

/-- Python `OrigFrom(network_id, local_id)`: a pair of u32 fields. -/
structure OrigFrom where
  network_id : Nat
  local_id : Nat
deriving DecidableEq, Repr

/-- Python `Message.START_GUARD = 0x7375624B` (the bytes of "Kbus", little endian). -/
def START_GUARD : Nat := 0x7375624B

/-- Python `Message.END_GUARD = 0x4B627573` (the bytes of "subK", little endian). -/
def END_GUARD : Nat := 0x4B627573

/-- Python `Message.WANT_A_REPLY = _BIT(0)`. -/
def WANT_A_REPLY : Nat := 1

/-- Python `Message.WANT_YOU_TO_REPLY = _BIT(1)`. -/
def WANT_YOU_TO_REPLY : Nat := 2

/-- Python `Message.SYNTHETIC = _BIT(2)`. -/
def SYNTHETIC : Nat := 4

/-- Python `Message.URGENT = _BIT(3)`. -/
def URGENT : Nat := 8

/-- Python `Message.ALL_OR_WAIT = _BIT(8)`. -/
def ALL_OR_WAIT : Nat := 256

/-- Python `Message.ALL_OR_FAIL = _BIT(9)`. -/
def ALL_OR_FAIL : Nat := 512

/-- The modulus of a `c_uint32` field. -/
def U32MOD : Nat := 4294967296

/-- The in-memory message structure.

The python code has two ctypes layouts: the "pointy" `_MessageHeaderStruct`
(name and data held through pointers) and the "entire"
`_EntireMessageStructBaseclass` (name and data concatenated after the header).
Both expose exactly the same logical fields through identically named
attributes and properties, so they are modelled as a single record carrying
the `is_pointy` tag each python class defines.  The ctypes `name_len` and
`data_len` fields always equal the lengths of the stored byte lists in every
code path modelled here, so they are `name.length` and `data.length` rather
than separate fields.  The `extra` field is always written as 0 and is never
compared or extracted, so it is omitted. -/
structure MessageStruct where
  is_pointy : Bool
  start_guard : Nat
  id : MessageId
  in_reply_to : MessageId
  to_ : Nat
  from_ : Nat
  orig_from : OrigFrom
  final_to : OrigFrom
  flags : Nat
  name : List Nat
  data : List Nat
  end_guard : Nat
deriving DecidableEq, Repr

/-- Python `message_from_parts(id, in_reply_to, to, from_, orig_from, final_to,
flags, name, data)`: builds a fresh "pointy" header with both guards set and
every integer field truncated by its `c_uint32` slot.  `name_len`/`data_len`
are set to the unpadded lengths. -/
def message_from_parts (id in_reply_to : MessageId) (to_ from_ : Nat)
    (orig_from final_to : OrigFrom) (flags : Nat)
    (name data : List Nat) : MessageStruct :=
  { is_pointy := true
    start_guard := START_GUARD
    id := ⟨id.network_id % U32MOD, id.serial_num % U32MOD⟩
    in_reply_to := ⟨in_reply_to.network_id % U32MOD, in_reply_to.serial_num % U32MOD⟩
    to_ := to_ % U32MOD
    from_ := from_ % U32MOD
    orig_from := ⟨orig_from.network_id % U32MOD, orig_from.local_id % U32MOD⟩
    final_to := ⟨final_to.network_id % U32MOD, final_to.local_id % U32MOD⟩
    flags := flags % U32MOD
    name := name
    data := data
    end_guard := END_GUARD }

/-- Python `Message._from_data(name, data, to, from_, orig_from, final_to,
in_reply_to, flags, id)`: replaces each `None` (and falsy) argument with the
zero value of its field and delegates to `message_from_parts`.  `data = []`
plays the role of python `data = None` (the two are indistinguishable to every
modelled operation). -/
def from_data (name data : List Nat) (to_ from_ : Option Nat)
    (orig_from final_to : Option OrigFrom) (in_reply_to : Option MessageId)
    (flags : Option Nat) (id : Option MessageId) : MessageStruct :=
  message_from_parts (id.getD ⟨0, 0⟩) (in_reply_to.getD ⟨0, 0⟩)
    (to_.getD 0) (from_.getD 0) (orig_from.getD ⟨0, 0⟩) (final_to.getD ⟨0, 0⟩)
    (flags.getD 0) name data

/-- The struct-level `name` attribute.  The "pointy" struct stores the name
through a `ctypes.c_char_p`, whose read stops at the first NUL byte; the
"entire" struct `name` property returns exactly `name_len` bytes. -/
def structName (m : MessageStruct) : List Nat :=
  if m.is_pointy then m.name.takeWhile (fun b => b != 0) else m.name

/-- Python `Message.name` property: `self.msg.name[:name_len]`. -/
def messageName (m : MessageStruct) : List Nat :=
  (structName m).take m.name.length

/-- Python `_equivalent_message_struct(this, that)`: equality ignoring
`id`, `flags`, `in_reply_to`, `from`, `orig_from`, `final_to` (and `extra`).
The data strings are only compared when `this.data_len` is non-zero, exactly
as in the source. -/
def equivalent_message_struct (a b : MessageStruct) : Bool :=
  if a.to_ == b.to_ && a.name.length == b.name.length
      && a.data.length == b.data.length && structName a == structName b then
    (if a.data.length != 0 then a.data == b.data else true)
  else false

/-- Python `calc_padded_name_len(name_len) = 4 * ((name_len + 1 + 3) // 4)`. -/
def calc_padded_name_len (name_len : Nat) : Nat :=
  4 * ((name_len + 1 + 3) / 4)

/-- Python `calc_padded_data_len(data_len) = 4 * ((data_len + 3) // 4)`. -/
def calc_padded_data_len (data_len : Nat) : Nat :=
  4 * ((data_len + 3) / 4)

/-- Python `MSG_HEADER_LEN = ctypes.sizeof(_MessageHeaderStruct)`: 88 bytes on
the 64-bit layout modelled here (see the layout notes in the file header). -/
def MSG_HEADER_LEN : Nat := 88

/-- Python `calc_entire_message_len(name_len, data_len)`. -/
def calc_entire_message_len (name_len data_len : Nat) : Nat :=
  MSG_HEADER_LEN + calc_padded_name_len name_len + calc_padded_data_len data_len + 4

/-- Python `Message.total_length()`:
`calc_entire_message_len(self.msg.name_len, self.msg.data_len)`. -/
def total_length (m : MessageStruct) : Nat :=
  calc_entire_message_len m.name.length m.data.length

/-- Four little-endian bytes of a u32 value. -/
def u32le (n : Nat) : List Nat :=
  [n % 256, n / 256 % 256, n / 65536 % 256, n / 16777216 % 256]

/-- Read a little-endian u32 from a byte string at a given offset, the way the
ctypes `memmove`-based `_struct_from_bytes` does.  Bytes beyond the end of the
string read as 0 (the python code never checks, see
`_entire_message_from_bytes`, which only validates the total length against
`MSG_HEADER_LEN` and the start guard). -/
def readU32 (bs : List Nat) (off : Nat) : Nat :=
  bs.getD off 0 + 256 * bs.getD (off + 1) 0
    + 65536 * bs.getD (off + 2) 0 + 16777216 * bs.getD (off + 3) 0

/-- The 88 serialised bytes of `_MessageHeaderStruct` in the "entire" form:
15 u32 fields, one u32 of alignment padding before the name pointer, the two
NULL pointer fields (8 zero bytes each, written as two zero u32s), the header
end guard and one u32 of trailing struct padding. -/
def headerBytes (id in_reply_to : MessageId) (to_ from_ : Nat)
    (orig_from final_to : OrigFrom) (flags name_len data_len : Nat) : List Nat :=
  u32le START_GUARD ++ (u32le id.network_id ++ (u32le id.serial_num ++
  (u32le in_reply_to.network_id ++ (u32le in_reply_to.serial_num ++
  (u32le to_ ++ (u32le from_ ++
  (u32le orig_from.network_id ++ (u32le orig_from.local_id ++
  (u32le final_to.network_id ++ (u32le final_to.local_id ++
  (u32le 0 ++ (u32le flags ++ (u32le name_len ++ (u32le data_len ++
  (u32le 0 ++ (u32le 0 ++ (u32le 0 ++ (u32le 0 ++ (u32le 0 ++
  (u32le END_GUARD ++ u32le 0))))))))))))))))))))

/-- The message name with its terminating NUL byte, zero-padded out to a
multiple of 4 bytes (the padding bytes and the terminator are all 0). -/
def paddedName (name : List Nat) : List Nat :=
  name ++ List.replicate (calc_padded_name_len name.length - name.length) 0

/-- The message data zero-padded out to a multiple of 4 bytes, no terminator. -/
def paddedData (data : List Nat) : List Nat :=
  data ++ List.replicate (calc_padded_data_len data.length - data.length) 0

/-- The serialised bytes of an "entire" message as built by
`_entire_message_from_parts` and sliced to `calc_entire_message_len` by
`Message.to_bytes`: header, padded name, padded data, final end guard. -/
def entireBytes (id in_reply_to : MessageId) (to_ from_ : Nat)
    (orig_from final_to : OrigFrom) (flags : Nat)
    (name data : List Nat) : List Nat :=
  headerBytes id in_reply_to to_ from_ orig_from final_to flags
      name.length data.length ++
    (paddedName name ++ (paddedData data ++ u32le END_GUARD))

/-- Python `Message.to_bytes()`: extracts the message parts (the name through
the `Message.name` property), rebuilds an "entire" message from them with
`_entire_message_from_parts` and returns its first
`calc_entire_message_len(len(name), len(data))` bytes, which is exactly the
layout of `entireBytes`. -/
def to_bytes (m : MessageStruct) : List Nat :=
  entireBytes m.id m.in_reply_to m.to_ m.from_ m.orig_from m.final_to m.flags
    (messageName m) m.data

/-- Python `_entire_message_from_bytes(data)`: fails when the input is shorter
than `MSG_HEADER_LEN` or does not open with the start guard, then rebuilds the
"entire" structure by copying bytes at the fixed header offsets.  Out-of-range
reads yield 0 bytes (the ctypes code performs no further length check). -/
def entire_message_from_bytes (bs : List Nat) : Except String MessageStruct :=
  if bs.length < MSG_HEADER_LEN then
    Except.error "Cannot form entire message from string: too short"
  else if readU32 bs 0 != START_GUARD then
    Except.error "Cannot form entire message from string: no start guard"
  else
    Except.ok
      { is_pointy := false
        start_guard := readU32 bs 0
        id := ⟨readU32 bs 4, readU32 bs 8⟩
        in_reply_to := ⟨readU32 bs 12, readU32 bs 16⟩
        to_ := readU32 bs 20
        from_ := readU32 bs 24
        orig_from := ⟨readU32 bs 28, readU32 bs 32⟩
        final_to := ⟨readU32 bs 36, readU32 bs 40⟩
        flags := readU32 bs 48
        name := (List.range (readU32 bs 52)).map (fun i => bs.getD (MSG_HEADER_LEN + i) 0)
        data := (List.range (readU32 bs 56)).map
          (fun i => bs.getD (MSG_HEADER_LEN + calc_padded_name_len (readU32 bs 52) + i) 0)
        end_guard := readU32 bs 80 }

/-- Python `Message.from_bytes(arg)`: wraps `_entire_message_from_bytes`
without any further check (in particular `_check` is not called). -/
def Message_from_bytes (bs : List Nat) : Except String MessageStruct :=
  entire_message_from_bytes bs

/-- Python `Message._check()`: validates both guards and the minimum name
length, raising `ValueError` otherwise. -/
def message_check (m : MessageStruct) : Except String MessageStruct :=
  if m.start_guard != START_GUARD then
    Except.error "Message start guard is wrong"
  else if m.end_guard != END_GUARD then
    Except.error "Message end guard is wrong"
  else if m.name.length < 3 then
    Except.error "Message name is too short, minimum is 3"
  else Except.ok m

/-- Python `Message.__init__(name, data, to, from_, orig_from, final_to,
in_reply_to, flags, id)`: rejects a name that does not start with the two
bytes of the string representing a dollar sign followed by a dot, builds the
message with `_from_data` and then runs `_check` on the result. -/
def Message_init (name data : List Nat) (to_ from_ : Option Nat)
    (orig_from final_to : Option OrigFrom) (in_reply_to : Option MessageId)
    (flags : Option Nat) (id : Option MessageId) : Except String MessageStruct :=
  if name.take 2 != [36, 46] then
    Except.error "Message name does not start with dollar dot"
  else
    message_check (from_data name data to_ from_ orig_from final_to in_reply_to flags id)

/-- Python `MessageId.__cmp__`: three-way comparison, network id first. -/
def messageIdCmp (a b : MessageId) : Int :=
  if a.network_id = b.network_id then
    if a.serial_num = b.serial_num then 0
    else if a.serial_num < b.serial_num then -1
    else 1
  else if a.network_id < b.network_id then -1
  else 1

/-- Python `Message.id` property: `None` when the stored id is the `(0,0)`
sentinel, the stored `MessageId` otherwise. -/
def extractId (m : MessageStruct) : Option MessageId :=
  if m.id = ⟨0, 0⟩ then none else some m.id

/-- Python `Message.in_reply_to` property, `None` at the `(0,0)` sentinel. -/
def extractInReplyTo (m : MessageStruct) : Option MessageId :=
  if m.in_reply_to = ⟨0, 0⟩ then none else some m.in_reply_to

/-- Python `Message.orig_from` property, `None` at the `(0,0)` sentinel. -/
def extractOrigFrom (m : MessageStruct) : Option OrigFrom :=
  if m.orig_from = ⟨0, 0⟩ then none else some m.orig_from

/-- Python `Message.final_to` property, `None` at the `(0,0)` sentinel. -/
def extractFinalTo (m : MessageStruct) : Option OrigFrom :=
  if m.final_to = ⟨0, 0⟩ then none else some m.final_to

/-- The 9-tuple returned by `Message.extract()`:
`(id, in_reply_to, to, from_, orig_from, final_to, flags, name, data)`.
This is also the `seq` argument of every `from_sequence` constructor (whose
only extra behaviour, a length-9 check on the sequence, is enforced here by
the type). -/
structure Extracted where
  id : Option MessageId
  in_reply_to : Option MessageId
  to_ : Nat
  from_ : Nat
  orig_from : Option OrigFrom
  final_to : Option OrigFrom
  flags : Nat
  name : List Nat
  data : List Nat
deriving DecidableEq, Repr

/-- Python `Message.extract()`. -/
def extract (m : MessageStruct) : Extracted :=
  ⟨extractId m, extractInReplyTo m, m.to_, m.from_, extractOrigFrom m,
    extractFinalTo m, m.flags, messageName m, m.data⟩

/-- Override helper of `_merge_args`: python keeps the extracted value
whenever the explicit argument is `None`. -/
def ovr {α : Type} (arg base : Option α) : Option α :=
  match arg with
  | some v => some v
  | none => base

/-- Python `Message._merge_args(extracted, data, to, from_, orig_from,
final_to, in_reply_to, flags, id)`: each non-`None` keyword argument replaces
the extracted value, then `_from_data` is applied.  No validation happens on
this path. -/
def merge_args (e : Extracted) (data : Option (List Nat)) (to_ from_ : Option Nat)
    (orig_from final_to : Option OrigFrom) (in_reply_to : Option MessageId)
    (flags : Option Nat) (id : Option MessageId) : MessageStruct :=
  from_data e.name (data.getD e.data) (some (to_.getD e.to_)) (some (from_.getD e.from_))
    (ovr orig_from e.orig_from) (ovr final_to e.final_to)
    (ovr in_reply_to e.in_reply_to) (some (flags.getD e.flags)) (ovr id e.id)

/-- Python `Message.from_message(msg, data, to, from_, orig_from, final_to,
in_reply_to, flags, id)`: `_merge_args` over `msg.extract()`, no checks. -/
def Message_from_message (msg : MessageStruct) (data : Option (List Nat))
    (to_ from_ : Option Nat) (orig_from final_to : Option OrigFrom)
    (in_reply_to : Option MessageId) (flags : Option Nat)
    (id : Option MessageId) : MessageStruct :=
  merge_args (extract msg) data to_ from_ orig_from final_to in_reply_to flags id

/-- Python `Message.from_sequence(seq, ...)`: identical to `from_message`
except that the extracted tuple is supplied directly. -/
def Message_from_sequence (e : Extracted) (data : Option (List Nat))
    (to_ from_ : Option Nat) (orig_from final_to : Option OrigFrom)
    (in_reply_to : Option MessageId) (flags : Option Nat)
    (id : Option MessageId) : MessageStruct :=
  merge_args e data to_ from_ orig_from final_to in_reply_to flags id

/-- Force the three fields an `Announcement` clears after construction:
`in_reply_to = MessageId(0, 0)`, `orig_from = OrigFrom(0, 0)`,
`final_to = OrigFrom(0, 0)`. -/
def clearAnnouncementFields (m : MessageStruct) : MessageStruct :=
  { m with in_reply_to := ⟨0, 0⟩, orig_from := ⟨0, 0⟩, final_to := ⟨0, 0⟩ }

/-- Python `Announcement.__init__(name, data, to, from_, flags, id)`: plain
`Message.__init__` without the `in_reply_to`, `orig_from` and `final_to`
arguments, after which those three fields are overwritten with zeros.
The `flags` argument is passed through unchanged. -/
def Announcement_init (name data : List Nat) (to_ from_ : Option Nat)
    (flags : Option Nat) (id : Option MessageId) : Except String MessageStruct :=
  (Message_init name data to_ from_ none none none flags id).map clearAnnouncementFields

/-- Python `Announcement.from_message(msg, data, to, from_, flags, id)`:
`_merge_args` with `orig_from`, `final_to` and `in_reply_to` fixed to `None`,
then the three fields are overwritten with zeros. -/
def Announcement_from_message (msg : MessageStruct) (data : Option (List Nat))
    (to_ from_ : Option Nat) (flags : Option Nat)
    (id : Option MessageId) : MessageStruct :=
  clearAnnouncementFields
    (Message_from_message msg data to_ from_ none none none flags id)

/-- Python `Announcement.from_sequence(seq, data, to, from_, flags, id)`. -/
def Announcement_from_sequence (e : Extracted) (data : Option (List Nat))
    (to_ from_ : Option Nat) (flags : Option Nat)
    (id : Option MessageId) : MessageStruct :=
  clearAnnouncementFields
    (Message_from_sequence e data to_ from_ none none none flags id)

/-- Python `Announcement.from_bytes(arg)`: `_entire_message_from_bytes`, then
the three fields are overwritten with zeros.  Flags from the bytes are kept. -/
def Announcement_from_bytes (bs : List Nat) : Except String MessageStruct :=
  (entire_message_from_bytes bs).map clearAnnouncementFields

/-- Python `Message.set_want_reply(True)`:
`flags = _set_bit(flags, Message.WANT_A_REPLY)`. -/
def set_want_reply (m : MessageStruct) : MessageStruct :=
  { m with flags := m.flags ||| WANT_A_REPLY }

/-- Python `Request.__init__(name, data, to, from_, final_to, flags, id)`:
plain `Message.__init__` (with `orig_from` and `in_reply_to` absent), then the
WANT_A_REPLY flag is forced on. -/
def Request_init (name data : List Nat) (to_ from_ : Option Nat)
    (final_to : Option OrigFrom) (flags : Option Nat)
    (id : Option MessageId) : Except String MessageStruct :=
  (Message_init name data to_ from_ none final_to none flags id).map set_want_reply

/-- Python `Request.from_message(msg, data, to, from_, final_to, flags, id)`. -/
def Request_from_message (msg : MessageStruct) (data : Option (List Nat))
    (to_ from_ : Option Nat) (final_to : Option OrigFrom) (flags : Option Nat)
    (id : Option MessageId) : MessageStruct :=
  set_want_reply (Message_from_message msg data to_ from_ none final_to none flags id)

/-- Python `Request.from_sequence(seq, data, to, from_, final_to, flags, id)`. -/
def Request_from_sequence (e : Extracted) (data : Option (List Nat))
    (to_ from_ : Option Nat) (final_to : Option OrigFrom) (flags : Option Nat)
    (id : Option MessageId) : MessageStruct :=
  set_want_reply (Message_from_sequence e data to_ from_ none final_to none flags id)

/-- Python `Request.from_bytes(arg)`: decode, then force WANT_A_REPLY on. -/
def Request_from_bytes (bs : List Nat) : Except String MessageStruct :=
  (entire_message_from_bytes bs).map set_want_reply

/-- The check every Reply constructor runs on its result: python
`if self.in_reply_to is None: raise ValueError("A Reply must specify
in_reply_to")`, where the `in_reply_to` property is `None` exactly at the
`(0,0)` sentinel. -/
def reply_check (m : MessageStruct) : Except String MessageStruct :=
  if m.in_reply_to = ⟨0, 0⟩ then Except.error "A Reply must specify in_reply_to"
  else Except.ok m

/-- Python `Reply.__init__(name, data, to, from_, orig_from, in_reply_to,
flags, id)`: plain `Message.__init__` (with `final_to` absent), then the
`in_reply_to` check. -/
def Reply_init (name data : List Nat) (to_ from_ : Option Nat)
    (orig_from : Option OrigFrom) (in_reply_to : Option MessageId)
    (flags : Option Nat) (id : Option MessageId) : Except String MessageStruct :=
  (Message_init name data to_ from_ orig_from none in_reply_to flags id).bind reply_check

/-- Python `Reply.from_message(msg, data, to, from_, orig_from, in_reply_to,
flags, id)`: merge (which cannot fail), then the same `in_reply_to` check. -/
def Reply_from_message (msg : MessageStruct) (data : Option (List Nat))
    (to_ from_ : Option Nat) (orig_from : Option OrigFrom)
    (in_reply_to : Option MessageId) (flags : Option Nat)
    (id : Option MessageId) : Except String MessageStruct :=
  reply_check (Message_from_message msg data to_ from_ orig_from none in_reply_to flags id)

/-- Python `Reply.from_sequence(seq, ...)`. -/
def Reply_from_sequence (e : Extracted) (data : Option (List Nat))
    (to_ from_ : Option Nat) (orig_from : Option OrigFrom)
    (in_reply_to : Option MessageId) (flags : Option Nat)
    (id : Option MessageId) : Except String MessageStruct :=
  reply_check (Message_from_sequence e data to_ from_ orig_from none in_reply_to flags id)

/-- Python `Reply.from_bytes(arg)`: decode, then the `in_reply_to` check. -/
def Reply_from_bytes (bs : List Nat) : Except String MessageStruct :=
  (entire_message_from_bytes bs).bind reply_check

/-- Python `reply_to(original, data, flags)`: demands WANT_A_REPLY and
WANT_YOU_TO_REPLY on the original, then constructs
`Reply(name, data=data, in_reply_to=id, to=from_, flags=flags)` where `name`,
`id` and `from_` are read from `original.extract()`. -/
def reply_to (original : MessageStruct) (data : List Nat) (flags : Nat) :
    Except String MessageStruct :=
  if original.flags &&& (WANT_A_REPLY ||| WANT_YOU_TO_REPLY)
      != WANT_A_REPLY ||| WANT_YOU_TO_REPLY then
    Except.error "Cannot form a reply to a message without WANT_A_REPLY and WANT_YOU_TO_REPLY"
  else
    Reply_init (messageName original) data (some original.from_) none none
      (extractId original) (some flags) none

/-- Boolean success test on an `Except` result. -/
def exceptIsOk {ε α : Type} : Except ε α → Bool
  | Except.ok _ => true
  | Except.error _ => false

/-- Specification-side definition, following the spec words only: the value
of padding a length "up to a multiple of 4", that is the least multiple of 4
that is not below the length.  Compared against the padding arithmetic of the
source in the claim about `total_length`. -/
def specRoundUp4 (n : Nat) : Nat :=
  if n % 4 = 0 then n else n + (4 - n % 4)

/-- Specification-side definition, following the spec words only: the
message-name invariant stated by the spec data model.  The name starts with
the two bytes of a dollar sign and a dot; the remainder is split into
components on the dot separator (byte 46); there is at least one component; no
component is empty (hence no leading, trailing or doubled separators); every
component consists of ASCII alphanumerics, except that the final component may
instead be exactly one star (42) or one percent (37) wildcard; the whole name
is no longer than an implementation-defined maximum, taken here as 1000.
Compared against what `Message.__init__` and `Message._check` enforce. -/
def specValidNameB (name : List Nat) : Bool :=
  let alnum : Nat → Bool := fun b =>
    (48 ≤ b && b ≤ 57) || (65 ≤ b && b ≤ 90) || (97 ≤ b && b ≤ 122)
  let rest := name.drop 2
  let comps := rest.splitOn 46
  name.take 2 == [36, 46] && name.length ≤ 1000 && rest != [] &&
    comps.all (fun c => c != []) &&
    (comps.dropLast).all (fun c => c.all alnum) &&
    (match comps.getLast? with
     | some c => c.all alnum || c == [42] || c == [37]
     | none => false)

end Kbus

namespace Kbus

/-- Helper: reassembling the four little-endian bytes of a u32 below 2^32
gives the value back. -/
theorem u32le_reassemble (n : Nat) (h : n < 4294967296) :
    n % 256 + 256 * (n / 256 % 256) + 65536 * (n / 65536 % 256)
      + 16777216 * (n / 16777216 % 256) = n := by
  omega

/-- Helper: the padded name length is at least one byte longer than the name
(room for the terminating NUL). -/
theorem calc_padded_name_len_ge (n : Nat) : n + 1 ≤ calc_padded_name_len n := by
  unfold calc_padded_name_len; omega

/-- Helper: the padded data length is at least the data length. -/
theorem calc_padded_data_len_ge (n : Nat) : n ≤ calc_padded_data_len n := by
  unfold calc_padded_data_len; omega

/-- Helper: length of the padded name block. -/
theorem paddedName_length (name : List Nat) :
    (paddedName name).length = calc_padded_name_len name.length := by
  have h := calc_padded_name_len_ge name.length
  simp [paddedName]
  omega

/-- Helper: length of the padded data block. -/
theorem paddedData_length (data : List Nat) :
    (paddedData data).length = calc_padded_data_len data.length := by
  have h := calc_padded_data_len_ge data.length
  simp [paddedData]
  omega

/-- Helper: the serialised header is 88 bytes long. -/
theorem headerBytes_length (id irt : MessageId) (to_ from_ : Nat)
    (orig_from final_to : OrigFrom) (flags name_len data_len : Nat) :
    (headerBytes id irt to_ from_ orig_from final_to flags name_len data_len).length
      = MSG_HEADER_LEN := by
  simp [headerBytes, u32le, MSG_HEADER_LEN]

/-- Helper: total length of the serialised entire message. -/
theorem entireBytes_length (id irt : MessageId) (to_ from_ : Nat)
    (orig_from final_to : OrigFrom) (flags : Nat) (name data : List Nat) :
    (entireBytes id irt to_ from_ orig_from final_to flags name data).length
      = calc_entire_message_len name.length data.length := by
  simp [entireBytes, headerBytes_length, paddedName_length, paddedData_length,
    calc_entire_message_len, MSG_HEADER_LEN, u32le]
  omega

/-- C3: `total_length` is the pure arithmetic function
header size + round-up-4(name_len + 1) + round-up-4(data_len) + 4 of the name
and data lengths alone, and its value does not depend on whether the message
is held in the "pointy" or the "entire" representation. -/
theorem C3_total_length_pure (m : MessageStruct) :
    total_length m
        = MSG_HEADER_LEN + specRoundUp4 (m.name.length + 1)
          + specRoundUp4 m.data.length + 4
      ∧ ∀ p : Bool, total_length { m with is_pointy := p } = total_length m := by
  constructor
  · unfold total_length calc_entire_message_len calc_padded_name_len
      calc_padded_data_len specRoundUp4
    split <;> split <;> omega
  · intro p
    rfl

/-- C4: `MessageId.__cmp__` is a total three-way comparison: it always returns
exactly one of -1, 0, 1; it returns 0 exactly on equal ids, -1 exactly when
the pair (network_id, serial_num) is lexicographically smaller, and 1 exactly
when it is lexicographically greater. -/
theorem C4_messageIdCmp_total_order (a b : MessageId) :
    (messageIdCmp a b = -1 ∨ messageIdCmp a b = 0 ∨ messageIdCmp a b = 1)
      ∧ (messageIdCmp a b = 0 ↔ a = b)
      ∧ (messageIdCmp a b = -1 ↔
          (a.network_id < b.network_id
            ∨ (a.network_id = b.network_id ∧ a.serial_num < b.serial_num)))
      ∧ (messageIdCmp a b = 1 ↔
          (b.network_id < a.network_id
            ∨ (b.network_id = a.network_id ∧ b.serial_num < a.serial_num))) := by
  obtain ⟨an, as⟩ := a
  obtain ⟨bn, bs⟩ := b
  unfold messageIdCmp
  simp only [MessageId.mk.injEq]
  split <;> rename_i h1
  · split <;> rename_i h2
    · simp_all
    · split <;> rename_i h3 <;> simp_all <;> omega
  · split <;> rename_i h3 <;> simp_all <;> omega

/-- C2: decoding a byte string (`Message.from_bytes`, which delegates to
`_entire_message_from_bytes` unchanged) fails exactly when the input is
shorter than the fixed header length or its leading 4 little-endian bytes are
not the start-guard magic value; no other condition (in particular neither
end guard) makes it fail. -/
theorem C2_decode_error_iff (bs : List Nat) :
    (∃ e, Message_from_bytes bs = Except.error e)
      ↔ (bs.length < MSG_HEADER_LEN ∨ readU32 bs 0 ≠ START_GUARD) := by
  unfold Message_from_bytes entire_message_from_bytes
  split <;> rename_i h1
  · simp [h1]
  · split <;> rename_i h2
    · simp only [bne_iff_ne, ne_eq] at h2
      simp [h1, h2]
    · simp only [bne_iff_ne, ne_eq, not_not] at h2
      simp [h1, h2]

/-- Helper: a NUL-free byte list is untouched by the c_char_p read. -/
theorem structName_of_nul_free (m : MessageStruct) (h : ∀ x ∈ m.name, x ≠ 0) :
    structName m = m.name := by
  unfold structName
  split
  · exact List.takeWhile_eq_self_iff.mpr (fun x hx => by simpa using h x hx)
  · rfl

/-- C5: `equivalent` returns true exactly when the two messages agree on the
`to` field, the name (length included) and the data (length included), and
changing any of the ignored fields `id`, `in_reply_to`, `from`, `orig_from`,
`final_to`, `flags` of either side never changes its result. -/
theorem C5_equivalent_ignores_fields (a b : MessageStruct) :
    ((∀ x ∈ a.name, x ≠ 0) → (∀ x ∈ b.name, x ≠ 0) →
      (equivalent_message_struct a b = true ↔
        (a.to_ = b.to_ ∧ a.name = b.name ∧ a.data = b.data)))
    ∧ (∀ i irt fr of ft fl,
        equivalent_message_struct
            { a with id := i, in_reply_to := irt, from_ := fr,
                     orig_from := of, final_to := ft, flags := fl } b
          = equivalent_message_struct a b
        ∧ equivalent_message_struct a
            { b with id := i, in_reply_to := irt, from_ := fr,
                     orig_from := of, final_to := ft, flags := fl }
          = equivalent_message_struct a b) := by
  constructor
  · intro ha hb
    have hA : structName a = a.name := structName_of_nul_free a ha
    have hB : structName b = b.name := structName_of_nul_free b hb
    unfold equivalent_message_struct
    rw [hA, hB]
    constructor
    · intro h
      split at h <;> rename_i hc
      · simp only [Bool.and_eq_true, beq_iff_eq] at hc
        obtain ⟨⟨⟨h1, h2⟩, h3⟩, h4⟩ := hc
        refine ⟨h1, h4, ?_⟩
        by_cases hd : a.data.length = 0
        · have ha0 : a.data = [] := List.length_eq_zero.mp hd
          have hb0 : b.data = [] := List.length_eq_zero.mp (h3 ▸ hd)
          rw [ha0, hb0]
        · simp only [bne_iff_ne, ne_eq, hd, not_false_eq_true, if_true,
            beq_iff_eq] at h
          exact h
      · exact absurd h (by simp)
    · rintro ⟨h1, h2, h3⟩
      simp only [h1, h2, h3, beq_self_eq_true, Bool.and_self, if_true]
      split <;> simp
  · intro i irt fr of ft fl
    exact ⟨rfl, rfl⟩

/-- Helper: inversion of `Except.map` on a success. -/
theorem exceptMap_ok {ε α β : Type} (f : α → β) (e : Except ε α) (b : β)
    (h : e.map f = Except.ok b) : ∃ a, e = Except.ok a ∧ b = f a := by
  cases e with
  | error s => simp [Except.map] at h
  | ok a => exact ⟨a, rfl, by simpa [Except.map] using h.symm⟩

/-- Helper: inversion of a successful `Message.__init__`: the result is the
raw `_from_data` structure, the name starts with the two magic bytes and has
at least 3 bytes. -/
theorem Message_init_ok (name data : List Nat) (to_ from_ : Option Nat)
    (orig_from final_to : Option OrigFrom) (in_reply_to : Option MessageId)
    (flags : Option Nat) (id : Option MessageId) (m : MessageStruct)
    (h : Message_init name data to_ from_ orig_from final_to in_reply_to flags id
          = Except.ok m) :
    m = from_data name data to_ from_ orig_from final_to in_reply_to flags id
      ∧ name.take 2 = [36, 46] ∧ 3 ≤ name.length := by
  unfold Message_init at h
  split at h <;> rename_i h1
  · exact Except.noConfusion h
  · unfold message_check at h
    split at h
    · exact Except.noConfusion h
    split at h
    · exact Except.noConfusion h
    split at h <;> rename_i h4
    · exact Except.noConfusion h
    · cases h
      have hn : (from_data name data to_ from_ orig_from final_to in_reply_to
          flags id).name = name := rfl
      rw [hn] at h4
      simp only [bne_iff_ne, ne_eq, not_not] at h1
      exact ⟨rfl, h1, by omega⟩

/-- Helper: `Message.__init__` succeeds on the nose when the name passes the
two checks, returning the `_from_data` structure. -/
theorem Message_init_eq_ok (name data : List Nat) (to_ from_ : Option Nat)
    (orig_from final_to : Option OrigFrom) (in_reply_to : Option MessageId)
    (flags : Option Nat) (id : Option MessageId)
    (h1 : name.take 2 = [36, 46]) (h2 : 3 ≤ name.length) :
    Message_init name data to_ from_ orig_from final_to in_reply_to flags id
      = Except.ok (from_data name data to_ from_ orig_from final_to in_reply_to flags id) := by
  unfold Message_init
  rw [if_neg (by simp [h1])]
  unfold message_check
  rw [if_neg (by simp [from_data, message_from_parts]),
      if_neg (by simp [from_data, message_from_parts])]
  rw [if_neg]
  have hn : (from_data name data to_ from_ orig_from final_to in_reply_to
      flags id).name = name := rfl
  rw [hn]
  omega

/-- C6 counterexample: an Announcement built with flags=Message.WANT_A_REPLY
succeeds and its flags keep the WANT_A_REPLY bit set, so the Announcement
constructors do not clear WANT_A_REPLY from a supplied flags argument. -/
theorem C6_counterexample_flags_kept :
    (Announcement_init [36, 46, 70] [] none none (some WANT_A_REPLY) none).map
        (fun m => m.flags.testBit 0)
      = Except.ok true := by
  rfl

/-- C6 amended: every successfully constructed Announcement (direct
construction, `from_message`, `from_sequence`, `from_bytes`) has `in_reply_to`
unset and `orig_from`/`final_to` forced to zero, but every constructor passes
the flags through unchanged (modulo u32 truncation): the direct constructor
stores the supplied flags argument, the merge constructors store the supplied
flags argument or, absent one, the source flags, and `from_bytes` keeps the
decoded flags.  WANT_A_REPLY and WANT_YOU_TO_REPLY are never cleared. -/
theorem C6_announcement_clears_reply_fields :
    (∀ name data to_ from_ flags id m,
        Announcement_init name data to_ from_ flags id = Except.ok m →
          m.in_reply_to = ⟨0, 0⟩ ∧ m.orig_from = ⟨0, 0⟩ ∧ m.final_to = ⟨0, 0⟩
            ∧ m.flags = (flags.getD 0) % U32MOD)
    ∧ (∀ msg data to_ from_ flags id,
        (Announcement_from_message msg data to_ from_ flags id).in_reply_to = ⟨0, 0⟩
          ∧ (Announcement_from_message msg data to_ from_ flags id).orig_from = ⟨0, 0⟩
          ∧ (Announcement_from_message msg data to_ from_ flags id).final_to = ⟨0, 0⟩
          ∧ (Announcement_from_message msg data to_ from_ flags id).flags
            = (flags.getD msg.flags) % U32MOD)
    ∧ (∀ e data to_ from_ flags id,
        (Announcement_from_sequence e data to_ from_ flags id).in_reply_to = ⟨0, 0⟩
          ∧ (Announcement_from_sequence e data to_ from_ flags id).orig_from = ⟨0, 0⟩
          ∧ (Announcement_from_sequence e data to_ from_ flags id).final_to = ⟨0, 0⟩
          ∧ (Announcement_from_sequence e data to_ from_ flags id).flags
            = (flags.getD e.flags) % U32MOD)
    ∧ (∀ bs m,
        Announcement_from_bytes bs = Except.ok m →
          m.in_reply_to = ⟨0, 0⟩ ∧ m.orig_from = ⟨0, 0⟩ ∧ m.final_to = ⟨0, 0⟩
            ∧ ∀ m0, entire_message_from_bytes bs = Except.ok m0 →
                m.flags = m0.flags) := by
  refine ⟨?_, ?_, ?_, ?_⟩
  · intro name data to_ from_ flags id m h
    obtain ⟨m0, hm0, hm⟩ := exceptMap_ok _ _ _ h
    obtain ⟨hq, -, -⟩ := Message_init_ok _ _ _ _ _ _ _ _ _ _ hm0
    subst hm hq
    exact ⟨rfl, rfl, rfl, rfl⟩
  · intro msg data to_ from_ flags id
    exact ⟨rfl, rfl, rfl, rfl⟩
  · intro e data to_ from_ flags id
    exact ⟨rfl, rfl, rfl, rfl⟩
  · intro bs m h
    obtain ⟨m0, hm0, hm⟩ := exceptMap_ok _ _ _ h
    subst hm
    refine ⟨rfl, rfl, rfl, ?_⟩
    intro m1 hm1
    rw [hm0] at hm1
    cases hm1
    rfl

/-- C6 amended witness at a concrete input. -/
theorem C6_witness :
    Kbus.MessageStruct.in_reply_to
        (clearAnnouncementFields (from_data [36, 46, 70] [] none none none none none (some 1) none))
      = ⟨0, 0⟩ :=
  (C6_announcement_clears_reply_fields.1 [36, 46, 70] [] none none (some 1) none
    (clearAnnouncementFields (from_data [36, 46, 70] [] none none none none none (some 1) none))
    rfl).1

/-- Helper: forcing the want-a-reply bit leaves bit 0 set. -/
theorem set_want_reply_sets_bit (m : MessageStruct) :
    ((set_want_reply m).flags &&& WANT_A_REPLY) = WANT_A_REPLY := by
  have h : Nat.testBit (m.flags ||| 1) 0 = true := by
    rw [Nat.testBit_lor]
    simp
  rw [Nat.testBit_zero] at h
  simp only [decide_eq_true_eq] at h
  show (m.flags ||| 1) &&& 1 = 1
  rw [Nat.and_one_is_mod]
  exact h

/-- C7: every successfully constructed Request (direct construction,
`from_message`, `from_sequence`, `from_bytes`) has the WANT_A_REPLY flag set,
whatever flags were supplied or came with the source message or bytes. -/
theorem C7_request_forces_want_a_reply :
    (∀ name data to_ from_ ft flags id m,
        Request_init name data to_ from_ ft flags id = Except.ok m →
          m.flags &&& WANT_A_REPLY = WANT_A_REPLY)
    ∧ (∀ msg data to_ from_ ft flags id,
        (Request_from_message msg data to_ from_ ft flags id).flags
          &&& WANT_A_REPLY = WANT_A_REPLY)
    ∧ (∀ e data to_ from_ ft flags id,
        (Request_from_sequence e data to_ from_ ft flags id).flags
          &&& WANT_A_REPLY = WANT_A_REPLY)
    ∧ (∀ bs m,
        Request_from_bytes bs = Except.ok m →
          m.flags &&& WANT_A_REPLY = WANT_A_REPLY) := by
  refine ⟨?_, ?_, ?_, ?_⟩
  · intro name data to_ from_ ft flags id m h
    obtain ⟨m0, hm0, hm⟩ := exceptMap_ok _ _ _ h
    subst hm
    exact set_want_reply_sets_bit m0
  · intro msg data to_ from_ ft flags id
    exact set_want_reply_sets_bit _
  · intro e data to_ from_ ft flags id
    exact set_want_reply_sets_bit _
  · intro bs m h
    obtain ⟨m0, hm0, hm⟩ := exceptMap_ok _ _ _ h
    subst hm
    exact set_want_reply_sets_bit m0

/-- C7 witness at a concrete input. -/
theorem C7_witness :
    Kbus.MessageStruct.flags
          (set_want_reply (from_data [36, 46, 70] [] none none none none none none none))
        &&& WANT_A_REPLY
      = WANT_A_REPLY :=
  C7_request_forces_want_a_reply.1 [36, 46, 70] [] none none none none none
    (set_want_reply (from_data [36, 46, 70] [] none none none none none none none)) rfl

/-- Helper: `reply_check` fails exactly at the sentinel `in_reply_to`. -/
theorem reply_check_error_iff (m : MessageStruct) :
    (∃ e, reply_check m = Except.error e) ↔ m.in_reply_to = ⟨0, 0⟩ := by
  unfold reply_check
  split <;> rename_i h3
  · simp [h3]
  · simp [h3]

/-- Helper: a successful `reply_check` passes its input through and certifies
a non-sentinel `in_reply_to`. -/
theorem reply_check_ok (m m2 : MessageStruct) (h : reply_check m = Except.ok m2) :
    m2.in_reply_to ≠ ⟨0, 0⟩ := by
  unfold reply_check at h
  split at h <;> rename_i h3
  · exact Except.noConfusion h
  · cases h; exact h3

/-- C8: constructing a Reply fails exactly when the in_reply_to field the
construction would store is the `(0,0)` sentinel (assuming, for the direct
constructor, a name that passes the name checks); every successfully
constructed Reply (direct construction, `from_message`, `from_sequence`,
`from_bytes`) carries a non-sentinel `in_reply_to`, and on failure only an
error is produced. -/
theorem C8_reply_requires_in_reply_to (name data : List Nat)
    (to_ from_ : Option Nat) (orig_from : Option OrigFrom)
    (in_reply_to : Option MessageId) (flags : Option Nat) (id : Option MessageId)
    (h1 : name.take 2 = [36, 46]) (h2 : 3 ≤ name.length) :
    ((∃ e, Reply_init name data to_ from_ orig_from in_reply_to flags id
          = Except.error e)
        ↔ (from_data name data to_ from_ orig_from none in_reply_to flags id).in_reply_to
          = ⟨0, 0⟩)
    ∧ (∀ m, Reply_init name data to_ from_ orig_from in_reply_to flags id
          = Except.ok m → m.in_reply_to ≠ ⟨0, 0⟩)
    ∧ (∀ msg d t f o ir fl i,
        ((∃ e, Reply_from_message msg d t f o ir fl i = Except.error e)
          ↔ (Message_from_message msg d t f o none ir fl i).in_reply_to = ⟨0, 0⟩)
        ∧ ∀ m, Reply_from_message msg d t f o ir fl i = Except.ok m →
            m.in_reply_to ≠ ⟨0, 0⟩)
    ∧ (∀ e d t f o ir fl i,
        ((∃ s, Reply_from_sequence e d t f o ir fl i = Except.error s)
          ↔ (Message_from_sequence e d t f o none ir fl i).in_reply_to = ⟨0, 0⟩)
        ∧ ∀ m, Reply_from_sequence e d t f o ir fl i = Except.ok m →
            m.in_reply_to ≠ ⟨0, 0⟩)
    ∧ (∀ bs m, Reply_from_bytes bs = Except.ok m → m.in_reply_to ≠ ⟨0, 0⟩)
    ∧ (∀ bs m0, entire_message_from_bytes bs = Except.ok m0 →
        ((∃ e, Reply_from_bytes bs = Except.error e)
          ↔ m0.in_reply_to = ⟨0, 0⟩)) := by
  refine ⟨?_, ?_, ?_, ?_, ?_, ?_⟩
  · unfold Reply_init
    rw [Message_init_eq_ok name data to_ from_ orig_from none in_reply_to flags id h1 h2]
    show (∃ e, reply_check _ = Except.error e) ↔ _
    exact reply_check_error_iff _
  · intro m h
    unfold Reply_init at h
    cases hq : Message_init name data to_ from_ orig_from none in_reply_to flags id with
    | error s => rw [hq] at h; exact Except.noConfusion h
    | ok m0 =>
      rw [hq] at h
      exact reply_check_ok m0 m h
  · intro msg d t f o ir fl i
    exact ⟨reply_check_error_iff _, fun m h => reply_check_ok _ m h⟩
  · intro e d t f o ir fl i
    exact ⟨reply_check_error_iff _, fun m h => reply_check_ok _ m h⟩
  · intro bs m h
    unfold Reply_from_bytes at h
    cases hq : entire_message_from_bytes bs with
    | error s => rw [hq] at h; exact Except.noConfusion h
    | ok m0 =>
      rw [hq] at h
      exact reply_check_ok m0 m h
  · intro bs m0 hq
    unfold Reply_from_bytes
    rw [hq]
    show (∃ e, reply_check m0 = Except.error e) ↔ _
    exact reply_check_error_iff m0

/-- C8 witness at a concrete input: a Reply built without `in_reply_to` fails. -/
theorem C8_witness :
    ∃ e, Reply_init [36, 46, 70] [] none none none none none none
      = Except.error e :=
  (C8_reply_requires_in_reply_to [36, 46, 70] [] none none none none none none
    rfl (by decide)).1.mpr rfl

/-- C9 counterexample: the name given by the bytes of dollar, dot, letter a,
dot, dot, letter b contains a doubled separator (an empty component), so it
violates the spec name invariant, yet `Message.__init__` accepts it: the
constructor does not enforce the full invariant. -/
theorem C9_counterexample_invalid_name_accepted :
    specValidNameB [36, 46, 97, 46, 46, 98] = false
      ∧ exceptIsOk (Message_init [36, 46, 97, 46, 46, 98] [] none none none
          none none none none) = true := by
  exact ⟨rfl, rfl⟩

/-- C9 amended: `Message.__init__` checks only that the name starts with the
two bytes of dollar-dot and is at least 3 bytes long; construction succeeds
exactly under those two conditions, and the successful message stores the
name unchanged.  The rest of the spec name invariant (component structure,
character set, wildcard position, maximum length) is not enforced by this
code, which defers it to KBUS proper. -/
theorem C9_name_check_amended (name data : List Nat) (to_ from_ : Option Nat)
    (orig_from final_to : Option OrigFrom) (in_reply_to : Option MessageId)
    (flags : Option Nat) (id : Option MessageId) :
    (exceptIsOk (Message_init name data to_ from_ orig_from final_to
          in_reply_to flags id) = true
      ↔ (name.take 2 = [36, 46] ∧ 3 ≤ name.length))
    ∧ (∀ m, Message_init name data to_ from_ orig_from final_to in_reply_to
          flags id = Except.ok m → m.name = name) := by
  constructor
  · constructor
    · intro h
      cases hq : Message_init name data to_ from_ orig_from final_to in_reply_to flags id with
      | error s => rw [hq] at h; exact Bool.noConfusion h
      | ok m =>
        obtain ⟨-, hb, hc⟩ := Message_init_ok _ _ _ _ _ _ _ _ _ _ hq
        exact ⟨hb, hc⟩
    · rintro ⟨hb, hc⟩
      rw [Message_init_eq_ok name data to_ from_ orig_from final_to in_reply_to
        flags id hb hc]
      rfl
  · intro m h
    obtain ⟨hq, -, -⟩ := Message_init_ok _ _ _ _ _ _ _ _ _ _ h
    subst hq
    rfl

/-- C9 amended witness at a concrete input. -/
theorem C9_witness :
    exceptIsOk (Message_init [36, 46, 70] [] none none none none none none none)
      = true :=
  (C9_name_check_amended [36, 46, 70] [] none none none none none none none).1.mpr
    ⟨rfl, by decide⟩

/-- Helper: the in_reply_to field stored by `_from_data`. -/
theorem from_data_in_reply_to (name data : List Nat) (to_ from_ : Option Nat)
    (orig_from final_to : Option OrigFrom) (in_reply_to : Option MessageId)
    (flags : Option Nat) (id : Option MessageId) :
    (from_data name data to_ from_ orig_from final_to in_reply_to flags id).in_reply_to
      = ⟨(in_reply_to.getD ⟨0, 0⟩).network_id % U32MOD,
         (in_reply_to.getD ⟨0, 0⟩).serial_num % U32MOD⟩ :=
  rfl

/-- A message with WANT_A_REPLY and WANT_YOU_TO_REPLY both set but an unset
(sentinel) id: the input on which `reply_to` fails although both flags are
set. -/
def c10orig : MessageStruct :=
  from_data [36, 46, 70] [] none none none none none (some 3) none

/-- C10 counterexample: `reply_to` applied to a message that has both
WANT_A_REPLY and WANT_YOU_TO_REPLY set still fails when the message id is the
`(0,0)` sentinel (the `Reply` constructor then rejects the unset
`in_reply_to`), so "fails exactly when the flags are missing" is wrong. -/
theorem C10_counterexample_unset_id :
    c10orig.flags &&& (WANT_A_REPLY ||| WANT_YOU_TO_REPLY)
        = WANT_A_REPLY ||| WANT_YOU_TO_REPLY
      ∧ exceptIsOk (reply_to c10orig [] 0) = false := by
  exact ⟨rfl, rfl⟩

/-- C10 amended: for a well-formed original message (NUL-free valid name and
in-range u32 fields, as any constructed message has), `reply_to(original,
data, flags)` fails exactly when the original lacks one of WANT_A_REPLY and
WANT_YOU_TO_REPLY or its id is the unset `(0,0)` sentinel; on success the
Reply keeps the original name, sends to the original `from_`, replies to the
original id, and takes exactly the `data` and `flags` arguments (nothing is
copied from the original data or flags). -/
theorem C10_reply_to_amended (original : MessageStruct) (data : List Nat)
    (flags : Nat)
    (hname0 : ∀ x ∈ original.name, x ≠ 0)
    (hname1 : original.name.take 2 = [36, 46])
    (hname2 : 3 ≤ original.name.length)
    (hfrom : original.from_ < U32MOD)
    (hid1 : original.id.network_id < U32MOD)
    (hid2 : original.id.serial_num < U32MOD)
    (hflags : flags < U32MOD) :
    ((∃ e, reply_to original data flags = Except.error e)
      ↔ (original.flags &&& (WANT_A_REPLY ||| WANT_YOU_TO_REPLY)
            ≠ WANT_A_REPLY ||| WANT_YOU_TO_REPLY
          ∨ original.id = ⟨0, 0⟩))
    ∧ (∀ m, reply_to original data flags = Except.ok m →
        m.name = original.name ∧ m.to_ = original.from_
          ∧ m.in_reply_to = original.id ∧ m.data = data ∧ m.flags = flags) := by
  have hmn : messageName original = original.name := by
    unfold messageName
    rw [structName_of_nul_free original hname0, List.take_length]
  constructor
  · unfold reply_to
    split <;> rename_i hf
    · simp only [bne_iff_ne, ne_eq] at hf
      constructor
      · intro _
        exact Or.inl hf
      · intro _
        exact ⟨_, rfl⟩
    · simp only [bne_iff_ne, ne_eq, not_not] at hf
      rw [hmn]
      unfold Reply_init
      rw [Message_init_eq_ok original.name data (some original.from_) none none
        none (extractId original) (some flags) none hname1 hname2]
      show (∃ e, reply_check _ = Except.error e) ↔ _
      rw [reply_check_error_iff, from_data_in_reply_to]
      constructor
      · intro h
        right
        by_cases hid : original.id = ⟨0, 0⟩
        · exact hid
        · exfalso
          unfold extractId at h
          rw [if_neg hid] at h
          simp only [Option.getD_some] at h
          injection h with hx hy
          rw [Nat.mod_eq_of_lt hid1] at hx
          rw [Nat.mod_eq_of_lt hid2] at hy
          exact hid (MessageId.ext hx hy)
      · rintro (hc | hid)
        · exact absurd hf hc
        · unfold extractId
          rw [if_pos hid]
          rfl
  · intro m h
    unfold reply_to at h
    split at h <;> rename_i hf
    · exact Except.noConfusion h
    · simp only [bne_iff_ne, ne_eq, not_not] at hf
      rw [hmn] at h
      unfold Reply_init at h
      rw [Message_init_eq_ok original.name data (some original.from_) none none
        none (extractId original) (some flags) none hname1 hname2] at h
      have h2 : reply_check (from_data original.name data (some original.from_)
          none none none (extractId original) (some flags) none) = Except.ok m := h
      unfold reply_check at h2
      split at h2 <;> rename_i h3
      · exact Except.noConfusion h2
      · cases h2
        refine ⟨rfl, Nat.mod_eq_of_lt hfrom, ?_, rfl, Nat.mod_eq_of_lt hflags⟩
        by_cases hid : original.id = ⟨0, 0⟩
        · exfalso
          apply h3
          rw [from_data_in_reply_to]
          unfold extractId
          rw [if_pos hid]
          rfl
        · rw [from_data_in_reply_to]
          unfold extractId
          rw [if_neg hid]
          simp only [Option.getD_some]
          exact MessageId.ext (Nat.mod_eq_of_lt hid1) (Nat.mod_eq_of_lt hid2)

/-- A well-formed stateful original (both reply flags set, id `(0,9)`). -/
def c10orig2 : MessageStruct :=
  from_data [36, 46, 70] [] none none none none none (some 3) (some ⟨0, 9⟩)

/-- C10 amended witness at a concrete input. -/
theorem C10_witness :
    (from_data [36, 46, 70] [51] (some 0) none none none (some ⟨0, 9⟩)
          (some 5) none).name = c10orig2.name
      ∧ (from_data [36, 46, 70] [51] (some 0) none none none (some ⟨0, 9⟩)
          (some 5) none).to_ = c10orig2.from_
      ∧ (from_data [36, 46, 70] [51] (some 0) none none none (some ⟨0, 9⟩)
          (some 5) none).in_reply_to = c10orig2.id
      ∧ (from_data [36, 46, 70] [51] (some 0) none none none (some ⟨0, 9⟩)
          (some 5) none).data = [51]
      ∧ (from_data [36, 46, 70] [51] (some 0) none none none (some ⟨0, 9⟩)
          (some 5) none).flags = 5 :=
  (C10_reply_to_amended c10orig2 [51] 5 (by decide) rfl (by decide) (by decide)
    (by decide) (by decide) (by decide)).2
    (from_data [36, 46, 70] [51] (some 0) none none none (some ⟨0, 9⟩)
      (some 5) none) rfl

/-- Helper: indexing past a left block of known length. -/
theorem getD_append_at (l r : List Nat) (n i : Nat) (h : l.length = n) :
    (l ++ r).getD (n + i) 0 = r.getD i 0 := by
  rw [List.getD_append_right l r 0 (n + i) (by omega)]
  congr 1
  omega

/-- Helper: the first u32 of a chunked byte string, read back. -/
theorem readU32_u32le_first (x : Nat) (rest : List Nat) :
    readU32 (u32le x ++ rest) 0
      = x % 256 + 256 * (x / 256 % 256) + 65536 * (x / 65536 % 256)
        + 16777216 * (x / 16777216 % 256) :=
  rfl

/-- Helper: reading past the first u32 chunk of a byte string. -/
theorem readU32_u32le_skip (x : Nat) (rest : List Nat) (k : Nat) :
    readU32 (u32le x ++ rest) (k + 4) = readU32 rest k :=
  rfl

/-- Helper: a u32 value below the modulus survives the byte roundtrip. -/
theorem readU32_u32le (x : Nat) (rest : List Nat) (h : x < U32MOD) :
    readU32 (u32le x ++ rest) 0 = x := by
  rw [readU32_u32le_first]
  exact u32le_reassemble x h

/-- Helper: the fully right-nested form of the serialised entire message. -/
theorem entireBytes_assoc (id irt : MessageId) (to_ from_ : Nat)
    (of ft : OrigFrom) (flags : Nat) (name data : List Nat) :
    entireBytes id irt to_ from_ of ft flags name data
      = u32le START_GUARD ++ (u32le id.network_id ++ (u32le id.serial_num ++
        (u32le irt.network_id ++ (u32le irt.serial_num ++ (u32le to_ ++
        (u32le from_ ++ (u32le of.network_id ++ (u32le of.local_id ++
        (u32le ft.network_id ++ (u32le ft.local_id ++ (u32le 0 ++
        (u32le flags ++ (u32le name.length ++ (u32le data.length ++
        (u32le 0 ++ (u32le 0 ++ (u32le 0 ++ (u32le 0 ++ (u32le 0 ++
        (u32le END_GUARD ++ (u32le 0 ++ (paddedName name ++
        (paddedData data ++ u32le END_GUARD))))))))))))))))))))))) := by
  simp only [entireBytes, headerBytes, List.append_assoc]

/-- Helper: decoding the serialised bytes of an entire message succeeds and
recovers the `to`, name and data fields exactly whenever those fields are in
u32 range (as every stored message field is). -/
theorem decode_entireBytes (id irt : MessageId) (to_ from_ : Nat)
    (of ft : OrigFrom) (flags : Nat) (name data : List Nat)
    (hto : to_ < U32MOD) (hnl : name.length < U32MOD) (hdl : data.length < U32MOD) :
    ∃ m2, entire_message_from_bytes (entireBytes id irt to_ from_ of ft flags name data)
        = Except.ok m2
      ∧ m2.is_pointy = false ∧ m2.to_ = to_ ∧ m2.name = name ∧ m2.data = data := by
  have hlen := entireBytes_length id irt to_ from_ of ft flags name data
  have hE := entireBytes_assoc id irt to_ from_ of ft flags name data
  have h0 : readU32 (entireBytes id irt to_ from_ of ft flags name data) 0
      = START_GUARD := by
    rw [hE]
    exact readU32_u32le START_GUARD _ (by decide)
  have h20 : readU32 (entireBytes id irt to_ from_ of ft flags name data) 20 = to_ := by
    rw [hE, show (20 : Nat) = 16 + 4 from rfl, readU32_u32le_skip,
      show (16 : Nat) = 12 + 4 from rfl, readU32_u32le_skip,
      show (12 : Nat) = 8 + 4 from rfl, readU32_u32le_skip,
      show (8 : Nat) = 4 + 4 from rfl, readU32_u32le_skip,
      show (4 : Nat) = 0 + 4 from rfl, readU32_u32le_skip]
    exact readU32_u32le to_ _ hto
  have h52 : readU32 (entireBytes id irt to_ from_ of ft flags name data) 52
      = name.length := by
    rw [hE, show (52 : Nat) = 48 + 4 from rfl, readU32_u32le_skip,
      show (48 : Nat) = 44 + 4 from rfl, readU32_u32le_skip,
      show (44 : Nat) = 40 + 4 from rfl, readU32_u32le_skip,
      show (40 : Nat) = 36 + 4 from rfl, readU32_u32le_skip,
      show (36 : Nat) = 32 + 4 from rfl, readU32_u32le_skip,
      show (32 : Nat) = 28 + 4 from rfl, readU32_u32le_skip,
      show (28 : Nat) = 24 + 4 from rfl, readU32_u32le_skip,
      show (24 : Nat) = 20 + 4 from rfl, readU32_u32le_skip,
      show (20 : Nat) = 16 + 4 from rfl, readU32_u32le_skip,
      show (16 : Nat) = 12 + 4 from rfl, readU32_u32le_skip,
      show (12 : Nat) = 8 + 4 from rfl, readU32_u32le_skip,
      show (8 : Nat) = 4 + 4 from rfl, readU32_u32le_skip,
      show (4 : Nat) = 0 + 4 from rfl, readU32_u32le_skip]
    exact readU32_u32le name.length _ hnl
  have h56 : readU32 (entireBytes id irt to_ from_ of ft flags name data) 56
      = data.length := by
    rw [hE, show (56 : Nat) = 52 + 4 from rfl, readU32_u32le_skip,
      show (52 : Nat) = 48 + 4 from rfl, readU32_u32le_skip,
      show (48 : Nat) = 44 + 4 from rfl, readU32_u32le_skip,
      show (44 : Nat) = 40 + 4 from rfl, readU32_u32le_skip,
      show (40 : Nat) = 36 + 4 from rfl, readU32_u32le_skip,
      show (36 : Nat) = 32 + 4 from rfl, readU32_u32le_skip,
      show (32 : Nat) = 28 + 4 from rfl, readU32_u32le_skip,
      show (28 : Nat) = 24 + 4 from rfl, readU32_u32le_skip,
      show (24 : Nat) = 20 + 4 from rfl, readU32_u32le_skip,
      show (20 : Nat) = 16 + 4 from rfl, readU32_u32le_skip,
      show (16 : Nat) = 12 + 4 from rfl, readU32_u32le_skip,
      show (12 : Nat) = 8 + 4 from rfl, readU32_u32le_skip,
      show (8 : Nat) = 4 + 4 from rfl, readU32_u32le_skip,
      show (4 : Nat) = 0 + 4 from rfl, readU32_u32le_skip]
    exact readU32_u32le data.length _ hdl
  have hname_at : ∀ i, i < name.length →
      (entireBytes id irt to_ from_ of ft flags name data).getD (MSG_HEADER_LEN + i) 0
        = name.getD i 0 := by
    intro i hi
    unfold entireBytes
    rw [getD_append_at _ _ MSG_HEADER_LEN i
      (headerBytes_length id irt to_ from_ of ft flags name.length data.length)]
    rw [List.getD_append _ _ _ _ (by
      rw [paddedName_length]
      have := calc_padded_name_len_ge name.length
      omega)]
    unfold paddedName
    rw [List.getD_append _ _ _ _ hi]
  have hdata_at : ∀ i, i < data.length →
      (entireBytes id irt to_ from_ of ft flags name data).getD
          (MSG_HEADER_LEN + calc_padded_name_len name.length + i) 0
        = data.getD i 0 := by
    intro i hi
    unfold entireBytes
    rw [Nat.add_assoc]
    rw [getD_append_at _ _ MSG_HEADER_LEN (calc_padded_name_len name.length + i)
      (headerBytes_length id irt to_ from_ of ft flags name.length data.length)]
    rw [getD_append_at _ _ (calc_padded_name_len name.length) i (paddedName_length name)]
    rw [List.getD_append _ _ _ _ (by
      rw [paddedData_length]
      have := calc_padded_data_len_ge data.length
      omega)]
    unfold paddedData
    rw [List.getD_append _ _ _ _ hi]
  unfold entire_message_from_bytes
  rw [if_neg (by
    rw [hlen]
    simp only [calc_entire_message_len, MSG_HEADER_LEN]
    omega)]
  rw [if_neg (by simp [h0])]
  refine ⟨_, rfl, rfl, h20, ?_, ?_⟩
  · show (List.range (readU32 (entireBytes id irt to_ from_ of ft flags name data) 52)).map
        (fun i => (entireBytes id irt to_ from_ of ft flags name data).getD
          (MSG_HEADER_LEN + i) 0) = name
    rw [h52]
    apply List.ext_getElem
    · simp
    · intro i h1 h2
      simp only [List.getElem_map, List.getElem_range]
      rw [hname_at i h2]
      exact List.getD_eq_getElem name 0 h2
  · show (List.range (readU32 (entireBytes id irt to_ from_ of ft flags name data) 56)).map
        (fun i => (entireBytes id irt to_ from_ of ft flags name data).getD
          (MSG_HEADER_LEN + calc_padded_name_len
            (readU32 (entireBytes id irt to_ from_ of ft flags name data) 52) + i) 0)
      = data
    rw [h56, h52]
    apply List.ext_getElem
    · simp
    · intro i h1 h2
      simp only [List.getElem_map, List.getElem_range]
      rw [hdata_at i h2]
      exact List.getD_eq_getElem data 0 h2

/-- C1: for every Message built by `Message.__init__` from a valid name
(NUL-free bytes, as every spec-valid name is) and optional data, decoding its
encoding succeeds and yields an equivalent message, and the encoding is
exactly `total_length` bytes long:
`Message.from_bytes(m.to_bytes()).equivalent(m)` holds and
`len(m.to_bytes()) == calc_entire_message_len(len(name), len(data))`. -/
theorem C1_roundtrip_and_length (name data : List Nat) (to_ from_ : Option Nat)
    (orig_from final_to : Option OrigFrom) (in_reply_to : Option MessageId)
    (flags : Option Nat) (id : Option MessageId) (m : MessageStruct)
    (hname : ∀ b ∈ name, b < 256 ∧ b ≠ 0)
    (hdata : ∀ b ∈ data, b < 256)
    (hnl : name.length < U32MOD) (hdl : data.length < U32MOD)
    (hok : Message_init name data to_ from_ orig_from final_to in_reply_to flags id
        = Except.ok m) :
    (∃ m2, Message_from_bytes (to_bytes m) = Except.ok m2
        ∧ equivalent_message_struct m2 m = true)
    ∧ (to_bytes m).length = calc_entire_message_len name.length data.length := by
  obtain ⟨hm, -, -⟩ := Message_init_ok _ _ _ _ _ _ _ _ _ _ hok
  subst hm
  set M := from_data name data to_ from_ orig_from final_to in_reply_to flags id
    with hM
  have hmname : M.name = name := rfl
  have hmdata : M.data = data := rfl
  have hmsg : messageName M = name := by
    unfold messageName
    rw [structName_of_nul_free M (fun x hx => (hname x hx).2)]
    show name.take name.length = name
    exact List.take_length name
  have hbytes : to_bytes M
      = entireBytes M.id M.in_reply_to M.to_ M.from_ M.orig_from M.final_to
          M.flags name data := by
    unfold to_bytes
    rw [hmsg, hmdata]
  have hto : M.to_ < U32MOD := Nat.mod_lt _ (by decide)
  obtain ⟨m2, hdec, hp, ht, hn, hd⟩ :=
    decode_entireBytes M.id M.in_reply_to M.to_ M.from_ M.orig_from M.final_to
      M.flags name data hto hnl hdl
  constructor
  · refine ⟨m2, ?_, ?_⟩
    · unfold Message_from_bytes
      rw [hbytes]
      exact hdec
    · have hsn2 : structName m2 = m2.name := by
        unfold structName
        rw [hp]
        simp
      have hsnM : structName M = M.name :=
        structName_of_nul_free M (fun x hx => (hname x hx).2)
      unfold equivalent_message_struct
      rw [hsn2, hsnM, hn, ht, hd, hmname, hmdata]
      simp
  · rw [hbytes, entireBytes_length]

/-- C1 witness at a concrete input. -/
theorem C1_witness :
    (∃ m2, Message_from_bytes (to_bytes (from_data [36, 46, 70] [49, 50]
            none none none none none (some 3) none)) = Except.ok m2
        ∧ equivalent_message_struct m2 (from_data [36, 46, 70] [49, 50]
            none none none none none (some 3) none) = true)
    ∧ (to_bytes (from_data [36, 46, 70] [49, 50] none none none none none
          (some 3) none)).length
      = calc_entire_message_len ([36, 46, 70] : List Nat).length
          ([49, 50] : List Nat).length :=
  C1_roundtrip_and_length [36, 46, 70] [49, 50] none none none none none
    (some 3) none
    (from_data [36, 46, 70] [49, 50] none none none none none (some 3) none)
    (by decide) (by decide) (by decide) (by decide) rfl

/-- C5 witness at a concrete input: two messages agreeing on to, name and
data, differing in id and flags, are equivalent. -/
theorem C5_witness :
    equivalent_message_struct
        (from_data [36, 46, 70] [49] none none none none none (some 7) (some ⟨1, 2⟩))
        (from_data [36, 46, 70] [49] none none none none none none none)
      = true :=
  ((C5_equivalent_ignores_fields
      (from_data [36, 46, 70] [49] none none none none none (some 7) (some ⟨1, 2⟩))
      (from_data [36, 46, 70] [49] none none none none none none none)).1
    (by decide) (by decide)).mpr (by decide)

end Kbus
